import Mathlib

/-!
Verification of the GeoPulse event-time stream processor
(`services/stream-processor/src`): sliding windows (`timeWindowManager.ts`),
the hysteretic state machine (`stateMachine.ts`) and the per-event handler
(`streamProcessor.ts`).  JavaScript numbers are modelled as `ℚ` (loads,
averages, coordinates) and `Int` (millisecond timestamps, counts); the
JavaScript `Map` is modelled as an association list preserving insertion
order, exactly as `Map.set`/`Map.get`/`Map.delete` behave.
-/

namespace GeoPulse

/-- Zone operational state, from `types.ts` (`ZoneState`). -/
inductive ZoneState
| NORMAL
| STRESSED
| CRITICAL
deriving DecidableEq, Repr

/-- A per-second bucket, from `types.ts` (`WindowBucket`). -/
structure WindowBucket where
  timestamp : Int
  sum : ℚ
  count : Int
deriving DecidableEq, Repr

/-- A sliding window, from `types.ts` (`ZoneWindow`); the bucket `Map` is an
association list keyed by `WindowBucket.timestamp`. -/
structure ZoneWindow where
  buckets : List WindowBucket
  totalSum : ℚ
  totalCount : Int
deriving DecidableEq, Repr

/-- Constant `TimeWindowManager.WINDOW_1M_SECONDS`. -/
def WINDOW_1M_SECONDS : Int := 60

/-- Constant `TimeWindowManager.WINDOW_5M_SECONDS`. -/
def WINDOW_5M_SECONDS : Int := 300

/-- Source `TimeWindowManager.createWindow`. -/
def createWindow : ZoneWindow :=
  { buckets := [], totalSum := 0, totalCount := 0 }

/-- Source `TimeWindowManager.evictExpiredBuckets`: delete every bucket with
`timestamp <= currentSecond - windowSizeSeconds`, decrementing the running
totals by the evicted sums and counts. -/
def evictExpiredBuckets (w : ZoneWindow) (currentSecond windowSizeSeconds : Int) : ZoneWindow :=
  let isExpired : WindowBucket → Bool := fun b =>
    decide (b.timestamp ≤ currentSecond - windowSizeSeconds)
  { buckets := w.buckets.filter (fun b => ! isExpired b)
    totalSum := w.totalSum - ((w.buckets.filter isExpired).map (fun b => b.sum)).sum
    totalCount := w.totalCount - ((w.buckets.filter isExpired).map (fun b => b.count)).sum }

/-- The `Map.get`-or-create followed by `sum += load; count += 1` part of
`TimeWindowManager.addEvent`: update the bucket keyed `secondTimestamp` in
place, or append a fresh one (a new bucket starts at `sum = 0, count = 0`
and is immediately incremented, hence `⟨secondTimestamp, load, 1⟩`). -/
def updateBucket : List WindowBucket → Int → ℚ → List WindowBucket
  | [], secondTimestamp, load => [⟨secondTimestamp, load, 1⟩]
  | b :: rest, secondTimestamp, load =>
    if b.timestamp = secondTimestamp then
      { b with sum := b.sum + load, count := b.count + 1 } :: rest
    else
      b :: updateBucket rest secondTimestamp load

/-- JavaScript `Math.floor(timestamp / 1000)` on millisecond timestamps. -/
def secondOf (timestamp : Int) : Int := Int.fdiv timestamp 1000

/-- Source `TimeWindowManager.addEvent`. -/
def addEvent (w : ZoneWindow) (timestamp : Int) (load : ℚ) (windowSizeSeconds : Int) :
    ZoneWindow :=
  let secondTimestamp := secondOf timestamp
  let w1 := evictExpiredBuckets w secondTimestamp windowSizeSeconds
  { buckets := updateBucket w1.buckets secondTimestamp load
    totalSum := w1.totalSum + load
    totalCount := w1.totalCount + 1 }

/-- Source `TimeWindowManager.calculateAverage`. -/
def calculateAverage (w : ZoneWindow) : ℚ :=
  if w.totalCount = 0 then 0 else w.totalSum / (w.totalCount : ℚ)

/-- Fold a list of `(timestamp, load)` insertions into a window. -/
def addEvents (w : ZoneWindow) (ops : List (Int × ℚ)) (windowSizeSeconds : Int) : ZoneWindow :=
  ops.foldl (fun acc op => addEvent acc op.1 op.2 windowSizeSeconds) w

/-- Per-zone mutable state, from `types.ts` (`ZoneStateData`). -/
structure ZoneStateData where
  currentState : ZoneState
  window1m : ZoneWindow
  window5m : ZoneWindow
  stressedSince : Option Int
  criticalSince : Option Int
  lastAlertTimestamp : Option Int
deriving DecidableEq, Repr

/-- Constant `StateMachine.THRESHOLD_STRESSED`. -/
def THRESHOLD_STRESSED : ℚ := 75 / 100

/-- Constant `StateMachine.THRESHOLD_CRITICAL_1M`. -/
def THRESHOLD_CRITICAL_1M : ℚ := 90 / 100

/-- Constant `StateMachine.THRESHOLD_CRITICAL_TO_STRESSED`. -/
def THRESHOLD_CRITICAL_TO_STRESSED : ℚ := 80 / 100

/-- Constant `StateMachine.THRESHOLD_STRESSED_TO_NORMAL`. -/
def THRESHOLD_STRESSED_TO_NORMAL : ℚ := 65 / 100

/-- Constant `StateMachine.CONFIRMATION_STRESSED_MS`. -/
def CONFIRMATION_STRESSED_MS : Int := 60000

/-- Constant `StateMachine.CONFIRMATION_CRITICAL_MS`. -/
def CONFIRMATION_CRITICAL_MS : Int := 20000

/-- Source `StateMachine.evaluateNormalState`.  The TypeScript body first sets a nil
`stressedSince` to the current timestamp, then dereferences it with the
non-null assertion `stressedSince!` (modelled by `Option.getD` with an
arbitrary fallback, provably unreachable). -/
def evaluateNormalState (avg5m : ℚ) (currentTimestamp : Int) (stateData : ZoneStateData) :
    ZoneState × ZoneStateData :=
  if THRESHOLD_STRESSED ≤ avg5m then
    let d :=
      if stateData.stressedSince = none then
        { stateData with stressedSince := some currentTimestamp }
      else stateData
    if CONFIRMATION_STRESSED_MS ≤ currentTimestamp - d.stressedSince.getD 0 then
      (ZoneState.STRESSED, { d with stressedSince := none })
    else
      (ZoneState.NORMAL, d)
  else
    (ZoneState.NORMAL, { stateData with stressedSince := none })

/-- Source `StateMachine.evaluateStressedState`. -/
def evaluateStressedState (avg1m avg5m : ℚ) (currentTimestamp : Int)
    (stateData : ZoneStateData) : ZoneState × ZoneStateData :=
  if THRESHOLD_CRITICAL_1M ≤ avg1m then
    let d :=
      if stateData.criticalSince = none then
        { stateData with criticalSince := some currentTimestamp }
      else stateData
    if CONFIRMATION_CRITICAL_MS ≤ currentTimestamp - d.criticalSince.getD 0 then
      (ZoneState.CRITICAL, { d with criticalSince := none })
    else
      (ZoneState.STRESSED, d)
  else if avg5m ≤ THRESHOLD_STRESSED_TO_NORMAL then
    (ZoneState.NORMAL, { stateData with stressedSince := none, criticalSince := none })
  else
    (ZoneState.STRESSED, { stateData with criticalSince := none })

/-- Source `StateMachine.evaluateCriticalState`. -/
def evaluateCriticalState (avg5m : ℚ) (currentTimestamp : Int) (stateData : ZoneStateData) :
    ZoneState × ZoneStateData :=
  if avg5m ≤ THRESHOLD_CRITICAL_TO_STRESSED then
    (ZoneState.STRESSED,
      { stateData with criticalSince := none, stressedSince := some currentTimestamp })
  else
    (ZoneState.CRITICAL, stateData)

/-- Source `StateMachine.getNextState`: returns the next state together with the
state data after the timer mutations the TypeScript performs in place. -/
def getNextState (currentState : ZoneState) (avg1m avg5m : ℚ) (currentTimestamp : Int)
    (stateData : ZoneStateData) : ZoneState × ZoneStateData :=
  match currentState with
  | ZoneState.NORMAL => evaluateNormalState avg5m currentTimestamp stateData
  | ZoneState.STRESSED => evaluateStressedState avg1m avg5m currentTimestamp stateData
  | ZoneState.CRITICAL => evaluateCriticalState avg5m currentTimestamp stateData

/-- Source `StateMachine.shouldAlert`. -/
def shouldAlert (previousState currentState : ZoneState) (lastAlertTimestamp : Option Int)
    (currentTimestamp : Int) : Bool :=
  if previousState ≠ currentState then
    match lastAlertTimestamp with
    | none => true
    | some last => decide (currentTimestamp - last > 1000)
  else false

/-- Transition function written from the words of spec section 4.4, for the
refinement comparison of claim C1: the four thresholds with inclusive
comparisons, the two confirmation windows, and the prescribed timer
mutations (set a nil timer to `t`, clear on transition or broken condition). -/
def specNextState (S : ZoneState) (a1 a5 : ℚ) (t : Int) (d : ZoneStateData) :
    ZoneState × ZoneStateData :=
  match S with
  | ZoneState.NORMAL =>
    if a5 ≥ THRESHOLD_STRESSED then
      let since := d.stressedSince.getD t
      if t - since ≥ CONFIRMATION_STRESSED_MS then
        (ZoneState.STRESSED, { d with stressedSince := none })
      else
        (ZoneState.NORMAL, { d with stressedSince := some since })
    else
      (ZoneState.NORMAL, { d with stressedSince := none })
  | ZoneState.STRESSED =>
    if a1 ≥ THRESHOLD_CRITICAL_1M then
      let since := d.criticalSince.getD t
      if t - since ≥ CONFIRMATION_CRITICAL_MS then
        (ZoneState.CRITICAL, { d with criticalSince := none })
      else
        (ZoneState.STRESSED, { d with criticalSince := some since })
    else if a5 ≤ THRESHOLD_STRESSED_TO_NORMAL then
      (ZoneState.NORMAL, { d with stressedSince := none, criticalSince := none })
    else
      (ZoneState.STRESSED, { d with criticalSince := none })
  | ZoneState.CRITICAL =>
    if a5 ≤ THRESHOLD_CRITICAL_TO_STRESSED then
      (ZoneState.STRESSED, { d with criticalSince := none, stressedSince := some t })
    else
      (ZoneState.CRITICAL, d)

/-- A sensor event, from `types.ts` (`SensorEvent`). -/
structure SensorEvent where
  eventId : String
  zoneId : String
  latitude : ℚ
  longitude : ℚ
  load : ℚ
  eventTimestamp : Int
  producedAt : Int
deriving DecidableEq, Repr

/-- The alert record published to `zone.alerts`, from `kafkaProducer.ts`
(`ZoneAlert`); the same fields feed the local `StateTransitionAlert` log. -/
structure ZoneAlert where
  zoneId : String
  previousState : ZoneState
  currentState : ZoneState
  avg1m : ℚ
  avg5m : ℚ
  timestamp : Int
deriving DecidableEq, Repr

/-- The materialized-state record written by `RedisWriter.writeZoneState`:
the zone hash fields plus the geo-index coordinates; `lastUpdated` is the
wall-clock `Date.now()` reading. -/
structure RedisWrite where
  zoneId : String
  state : ZoneState
  avg1m : ℚ
  avg5m : ℚ
  latitude : ℚ
  longitude : ℚ
  lastUpdated : Int
deriving DecidableEq, Repr

/-- JavaScript `Map.get`: first entry with the given key, as such maps hold at
most one entry per key. -/
def lookupZ {α : Type} (m : List (String × α)) (k : String) : Option α :=
  (m.find? (fun p => decide (p.1 = k))).map (fun p => p.2)

/-- JavaScript `Map.set`: replace in place if the key is present, else append. -/
def insertZ {α : Type} : List (String × α) → String → α → List (String × α)
  | [], k, v => [(k, v)]
  | (k0, v0) :: rest, k, v =>
    if k0 = k then (k, v) :: rest else (k0, v0) :: insertZ rest k v

/-- The processor's maps `zoneStates` and `zoneCoordinates`
(`streamProcessor.ts`); coordinates are `(latitude, longitude)`. -/
structure ProcessorState where
  zoneStates : List (String × ZoneStateData)
  zoneCoordinates : List (String × (ℚ × ℚ))
deriving DecidableEq, Repr

/-- The fresh processor: both maps empty. -/
def initialProcessorState : ProcessorState :=
  { zoneStates := [], zoneCoordinates := [] }

/-- Source `StreamProcessor.createZoneState`. -/
def createZoneState : ZoneStateData :=
  { currentState := ZoneState.NORMAL
    window1m := createWindow
    window5m := createWindow
    stressedSince := none
    criticalSince := none
    lastAlertTimestamp := none }

/-- The zone state `handleEvent` works on: the stored one, or a fresh
`createZoneState` for a zone seen for the first time. -/
def zoneDataOf (st : ProcessorState) (z : String) : ZoneStateData :=
  (lookupZ st.zoneStates z).getD createZoneState

/-- The coordinate cache after the `if (!this.zoneCoordinates.has(...))`
block at the top of `handleEvent`: only a first event for a zone stores its
`(latitude, longitude)`. -/
def coordsAfter (st : ProcessorState) (e : SensorEvent) : List (String × (ℚ × ℚ)) :=
  match lookupZ st.zoneCoordinates e.zoneId with
  | some _ => st.zoneCoordinates
  | none => insertZ st.zoneCoordinates e.zoneId (e.latitude, e.longitude)

/-- The zone's 1-minute window after the first `TimeWindowManager.addEvent`
call of `handleEvent`. -/
def window1After (st : ProcessorState) (e : SensorEvent) : ZoneWindow :=
  addEvent (zoneDataOf st e.zoneId).window1m e.eventTimestamp e.load WINDOW_1M_SECONDS

/-- The zone's 5-minute window after the second `TimeWindowManager.addEvent`
call of `handleEvent`. -/
def window5After (st : ProcessorState) (e : SensorEvent) : ZoneWindow :=
  addEvent (zoneDataOf st e.zoneId).window5m e.eventTimestamp e.load WINDOW_5M_SECONDS

/-- The `avg1m` that `handleEvent` computes for the event. -/
def avg1After (st : ProcessorState) (e : SensorEvent) : ℚ :=
  calculateAverage (window1After st e)

/-- The `avg5m` that `handleEvent` computes for the event. -/
def avg5After (st : ProcessorState) (e : SensorEvent) : ℚ :=
  calculateAverage (window5After st e)

/-- The `StateMachine.getNextState` call of `handleEvent`: by the time it
runs, both `addEvent` calls have already mutated the zone's windows in
place. -/
def machineStep (st : ProcessorState) (e : SensorEvent) : ZoneState × ZoneStateData :=
  getNextState (zoneDataOf st e.zoneId).currentState (avg1After st e) (avg5After st e)
    e.eventTimestamp
    { zoneDataOf st e.zoneId with
        window1m := window1After st e
        window5m := window5After st e }

/-- The `nextState` local of `handleEvent`. -/
def nextStateOf (st : ProcessorState) (e : SensorEvent) : ZoneState :=
  (machineStep st e).1

/-- The zone state data right after `getNextState` returned (timers possibly
mutated, windows updated, `currentState` and `lastAlertTimestamp` untouched). -/
def dataAfterMachine (st : ProcessorState) (e : SensorEvent) : ZoneStateData :=
  (machineStep st e).2

/-- The `StateMachine.shouldAlert` call of `handleEvent`. -/
def alertEmitted (st : ProcessorState) (e : SensorEvent) : Bool :=
  shouldAlert (zoneDataOf st e.zoneId).currentState (nextStateOf st e)
    (dataAfterMachine st e).lastAlertTimestamp e.eventTimestamp

/-- The zone's state data at the end of `handleEvent`: `lastAlertTimestamp`
set to the event timestamp exactly when an alert was emitted, then
`currentState` updated to the next state. -/
def newZoneData (st : ProcessorState) (e : SensorEvent) : ZoneStateData :=
  let d1 := dataAfterMachine st e
  let d2 :=
    if alertEmitted st e then { d1 with lastAlertTimestamp := some e.eventTimestamp } else d1
  { d2 with currentState := nextStateOf st e }

/-- Source `RedisWriter.writeZoneState`: the record written to the zone hash and
geo-index, with the averages recomputed from the stored windows and
`lastUpdated` read from the wall clock. -/
def writeZoneState (zoneId : String) (stateData : ZoneStateData) (latitude longitude : ℚ)
    (now : Int) : RedisWrite :=
  { zoneId := zoneId
    state := stateData.currentState
    avg1m := calculateAverage stateData.window1m
    avg5m := calculateAverage stateData.window5m
    latitude := latitude
    longitude := longitude
    lastUpdated := now }

/-- What one `handleEvent` call produces: the new processor state, the alert
published to `zone.alerts` (if any), and the Redis write (if any). -/
structure StepResult where
  state : ProcessorState
  alert : Option ZoneAlert
  write : Option RedisWrite
deriving DecidableEq, Repr

/-- Source `StreamProcessor.handleEvent` (Phase-4/5 version of
`streamProcessor.ts`): cache first-seen coordinates, feed both windows,
run the state machine, emit the alert when `shouldAlert` fires, update the
stored state, and on any state change write the materialized record with
the cached coordinates.  `clock` stands for the `Date.now()` readings made
while handling the event. -/
def handleEvent (st : ProcessorState) (e : SensorEvent) (clock : Int) : StepResult :=
  { state :=
      { zoneStates := insertZ st.zoneStates e.zoneId (newZoneData st e)
        zoneCoordinates := coordsAfter st e }
    alert :=
      if alertEmitted st e then
        some
          { zoneId := e.zoneId
            previousState := (zoneDataOf st e.zoneId).currentState
            currentState := nextStateOf st e
            avg1m := avg1After st e
            avg5m := avg5After st e
            timestamp := e.eventTimestamp }
      else none
    write :=
      if nextStateOf st e ≠ (zoneDataOf st e.zoneId).currentState then
        match lookupZ (coordsAfter st e) e.zoneId with
        | some c => some (writeZoneState e.zoneId (newZoneData st e) c.1 c.2 clock)
        | none => none
      else none }

/-- The accumulated outcome of a run. -/
structure RunResult where
  state : ProcessorState
  alerts : List ZoneAlert
  writes : List RedisWrite
deriving DecidableEq, Repr

/-- Process a list of events in order from a given state, collecting the
emitted alerts and Redis writes; `clocks` supplies one wall-clock reading
per event (0 once exhausted). -/
def processFrom (st : ProcessorState) : List SensorEvent → List Int → RunResult
  | [], _ => { state := st, alerts := [], writes := [] }
  | e :: es, clocks =>
    let r := handleEvent st e (clocks.headD 0)
    let rest := processFrom r.state es clocks.tail
    { state := rest.state
      alerts := r.alert.toList ++ rest.alerts
      writes := r.write.toList ++ rest.writes }

/-- Process a list of events from the fresh processor. -/
def processAll (events : List SensorEvent) (clocks : List Int) : RunResult :=
  processFrom initialProcessorState events clocks

/-- The set of legal fired transitions from spec section 4.4. -/
def legalPair (p c : ZoneState) : Prop :=
  (p = ZoneState.NORMAL ∧ c = ZoneState.STRESSED) ∨
  (p = ZoneState.STRESSED ∧ c = ZoneState.CRITICAL) ∨
  (p = ZoneState.CRITICAL ∧ c = ZoneState.STRESSED) ∨
  (p = ZoneState.STRESSED ∧ c = ZoneState.NORMAL)

/-- The alerts of one zone, in emission order. -/
def alertsFor (z : String) (as : List ZoneAlert) : List ZoneAlert :=
  as.filter (fun a => decide (a.zoneId = z))

/-- Shorthand for building the concrete events of the counterexample runs. -/
def mkEvent (z : String) (t : Int) (load : ℚ) (lat lon : ℚ) : SensorEvent :=
  { eventId := "", zoneId := z, latitude := lat, longitude := lon, load := load,
    eventTimestamp := t, producedAt := t }

/-- The six-event run refuting the alert-chaining half of claim C5. -/
def c5Events : List SensorEvent :=
  [ mkEvent "Z" 0 1 0 0, mkEvent "Z" 60000 1 0 0, mkEvent "Z" 80000 1 0 0,
    mkEvent "Z" 100000 1 0 0, mkEvent "Z" 100500 0 0 0, mkEvent "Z" 500000 0 0 0 ]

/-- The two-event run refuting claim C6: an in-window event at t = 400000 s
followed by an out-of-order event at t = 0. -/
def c6Events : List SensorEvent :=
  [ mkEvent "W" 400000 1 0 0, mkEvent "W" 0 1 0 0 ]

/-- All bucket keys of every zone window are at most `M`. -/
def windowKeysLE (st : ProcessorState) (M : Int) : Prop :=
  ∀ z, (∀ b ∈ (zoneDataOf st z).window1m.buckets, b.timestamp ≤ M) ∧
    (∀ b ∈ (zoneDataOf st z).window5m.buckets, b.timestamp ≤ M)

/-- The running-totals invariant of a window: `totalSum` and `totalCount`
are the sums of the bucket fields, and every bucket count is positive. -/
def WindowInv (w : ZoneWindow) : Prop :=
  w.totalSum = (w.buckets.map (fun b => b.sum)).sum ∧
  w.totalCount = (w.buckets.map (fun b => b.count)).sum ∧
  ∀ b ∈ w.buckets, 0 < b.count

/-- Iterate the state machine over a list of `(avg1m, avg5m, timestamp)`
inputs, each step applying the timer mutations and adopting the returned
state, exactly as one processed event does. -/
def machineRun (d : ZoneStateData) : List (ℚ × ℚ × Int) → ZoneStateData
  | [] => d
  | (a1, a5, t) :: rest =>
    let s := getNextState d.currentState a1 a5 t d
    machineRun { s.2 with currentState := s.1 } rest

/-- The 23-event history driving zone "Z" into STRESSED with a diluted
5-minute window: two full-load events one minute apart, then 21 events of
load 0.7 at one-second intervals. -/
def c9History : List SensorEvent :=
  [mkEvent "Z" 0 1 0 0, mkEvent "Z" 60000 1 0 0] ++
    (List.range 21).map (fun j => mkEvent "Z" (61000 + 1000 * (j : Int)) (7/10) 0 0)

/-- First probe event: full load after a 100 s gap, so the 1-minute window
holds only this event. -/
def c9Q1 : SensorEvent := mkEvent "Z" 181000 1 0 0

/-- Second probe event, 20 s later: the critical confirmation matures. -/
def c9Q2 : SensorEvent := mkEvent "Z" 201000 1 0 0

/-- The first `(latitude, longitude)` carried by an event of a zone in a
run, i.e. the coordinates the processor caches for it. -/
def firstCoord (events : List SensorEvent) (z : String) : Option (ℚ × ℚ) :=
  (events.find? (fun e => decide (e.zoneId = z))).map (fun e => (e.latitude, e.longitude))

/-- The two-event run refuting claim C10: both events carry zone "Z" but
different coordinates; the transition fires on the second event. -/
def c10Events : List SensorEvent :=
  [ mkEvent "Z" 0 1 10 20, mkEvent "Z" 60000 1 30 40 ]

/-- The single materialized write of the c10Events run. -/
def c10Write : RedisWrite :=
  { zoneId := "Z", state := ZoneState.STRESSED, avg1m := 1, avg5m := 1,
    latitude := 10, longitude := 20, lastUpdated := 0 }

/-- The first alert of the c10Events run, used as the claim C4 witness. -/
def c4WitnessAlert : ZoneAlert :=
  { zoneId := "Z", previousState := ZoneState.NORMAL, currentState := ZoneState.STRESSED,
    avg1m := 1, avg5m := 1, timestamp := 60000 }

/-- The earlier event of the claim C6 witness run. -/
def c6wPre : SensorEvent := mkEvent "Y" 0 (1/2) 0 0

/-- The later, in-order event of the claim C6 witness run. -/
def c6wEvent : SensorEvent := mkEvent "Y" 30000 (1/2) 0 0

theorem lookupZ_insertZ_self {α : Type} (m : List (String × α)) (k : String) (v : α) :
    lookupZ (insertZ m k v) k = some v := by
  induction m with
  | nil => simp [lookupZ, insertZ]
  | cons p rest ih =>
    obtain ⟨k0, v0⟩ := p
    by_cases h : k0 = k
    · simp [lookupZ, insertZ, h]
    · simpa [lookupZ, insertZ, h] using ih

theorem lookupZ_insertZ_ne {α : Type} (m : List (String × α)) (k k2 : String) (v : α)
    (h : k ≠ k2) : lookupZ (insertZ m k v) k2 = lookupZ m k2 := by
  induction m with
  | nil => simp [lookupZ, insertZ, h]
  | cons p rest ih =>
    obtain ⟨k0, v0⟩ := p
    by_cases h0 : k0 = k
    · subst h0
      simp [lookupZ, insertZ, h]
    · by_cases h2 : k0 = k2
      · simp [lookupZ, insertZ, h0, h2, Ne.symm h]
      · simpa [lookupZ, insertZ, h0, h2] using ih

theorem getNextState_lastAlert (S : ZoneState) (a1 a5 : ℚ) (t : Int) (d : ZoneStateData) :
    (getNextState S a1 a5 t d).2.lastAlertTimestamp = d.lastAlertTimestamp := by
  obtain ⟨cur, w1, w5, ss, cs, la⟩ := d
  cases S
  · cases ss <;> (simp [getNextState, evaluateNormalState]; split_ifs <;> rfl)
  · cases cs <;> (simp [getNextState, evaluateStressedState]; split_ifs <;> rfl)
  · simp [getNextState, evaluateCriticalState]; split_ifs <;> rfl

theorem getNextState_windows (S : ZoneState) (a1 a5 : ℚ) (t : Int) (d : ZoneStateData) :
    (getNextState S a1 a5 t d).2.window1m = d.window1m ∧
    (getNextState S a1 a5 t d).2.window5m = d.window5m := by
  obtain ⟨cur, w1, w5, ss, cs, la⟩ := d
  cases S
  · cases ss <;> (simp [getNextState, evaluateNormalState]; split_ifs <;> simp)
  · cases cs <;> (simp [getNextState, evaluateStressedState]; split_ifs <;> simp)
  · simp [getNextState, evaluateCriticalState]; split_ifs <;> simp

theorem shouldAlert_iff (p c : ZoneState) (last : Option Int) (t : Int) :
    shouldAlert p c last t = true ↔
      (c ≠ p ∧ (last = none ∨ ∃ l, last = some l ∧ t - l > 1000)) := by
  cases last <;> by_cases h : p = c <;> simp [shouldAlert, h, Ne.symm]

theorem dataAfterMachine_lastAlert (st : ProcessorState) (e : SensorEvent) :
    (dataAfterMachine st e).lastAlertTimestamp =
      (zoneDataOf st e.zoneId).lastAlertTimestamp := by
  simpa [dataAfterMachine, machineStep] using
    getNextState_lastAlert (zoneDataOf st e.zoneId).currentState (avg1After st e)
      (avg5After st e) e.eventTimestamp
      { zoneDataOf st e.zoneId with
          window1m := window1After st e
          window5m := window5After st e }

theorem newZoneData_lastAlert (st : ProcessorState) (e : SensorEvent) :
    (newZoneData st e).lastAlertTimestamp =
      (if alertEmitted st e then some e.eventTimestamp
       else (zoneDataOf st e.zoneId).lastAlertTimestamp) := by
  by_cases h : alertEmitted st e <;>
    simp [newZoneData, h, dataAfterMachine_lastAlert]

theorem zoneDataOf_handleEvent_self (st : ProcessorState) (e : SensorEvent) (clock : Int) :
    zoneDataOf (handleEvent st e clock).state e.zoneId = newZoneData st e := by
  simp [zoneDataOf, handleEvent, lookupZ_insertZ_self]

theorem zoneDataOf_handleEvent_ne (st : ProcessorState) (e : SensorEvent) (clock : Int)
    (z : String) (h : z ≠ e.zoneId) :
    zoneDataOf (handleEvent st e clock).state z = zoneDataOf st z := by
  simp [zoneDataOf, handleEvent, lookupZ_insertZ_ne _ _ _ _ (Ne.symm h)]

/-- Claim C1: `StateMachine.getNextState` computes exactly the section 4.4
transition relation — inclusive thresholds 0.75/0.90 up and 0.80/0.65 down,
confirmation windows of 60000 ms and 20000 ms measured against the
`stressedSince`/`criticalSince` timers, and exactly the prescribed timer
mutations (arming a nil timer at `t`, clearing on transition or on a broken
condition). -/
theorem getNextState_matches_spec (S : ZoneState) (a1 a5 : ℚ) (t : Int) (d : ZoneStateData) :
    getNextState S a1 a5 t d = specNextState S a1 a5 t d := by
  obtain ⟨cur, w1, w5, ss, cs, la⟩ := d
  cases S
  · cases ss <;>
      simp [getNextState, specNextState, evaluateNormalState, ge_iff_le]
  · cases cs <;>
      simp [getNextState, specNextState, evaluateStressedState, ge_iff_le]
  · simp [getNextState, specNextState, evaluateCriticalState]

/-- Claim C2: for every processed event, an alert is emitted iff the next
state differs from the previous one and the zone's `lastAlertTimestamp` is
nil or more than 1000 ms older than the event timestamp; and the stored
`lastAlertTimestamp` is set to the event timestamp exactly when an alert is
emitted, and left unchanged otherwise. -/
theorem alert_emission_predicate (st : ProcessorState) (e : SensorEvent) (clock : Int) :
    ((handleEvent st e clock).alert.isSome = true ↔
      (nextStateOf st e ≠ (zoneDataOf st e.zoneId).currentState ∧
        ((zoneDataOf st e.zoneId).lastAlertTimestamp = none ∨
          ∃ l, (zoneDataOf st e.zoneId).lastAlertTimestamp = some l ∧
            e.eventTimestamp - l > 1000))) ∧
    (zoneDataOf (handleEvent st e clock).state e.zoneId).lastAlertTimestamp =
      (if (handleEvent st e clock).alert.isSome then some e.eventTimestamp
       else (zoneDataOf st e.zoneId).lastAlertTimestamp) := by
  have halert : (handleEvent st e clock).alert.isSome = alertEmitted st e := by
    by_cases h : alertEmitted st e <;> simp [handleEvent, h]
  constructor
  · rw [halert]
    unfold alertEmitted
    rw [dataAfterMachine_lastAlert]
    exact shouldAlert_iff _ _ _ _
  · rw [zoneDataOf_handleEvent_self, newZoneData_lastAlert, halert]

theorem processFrom_clock_indep (events : List SensorEvent) :
    ∀ (st : ProcessorState) (clocks1 clocks2 : List Int),
      (processFrom st events clocks1).state = (processFrom st events clocks2).state ∧
      (processFrom st events clocks1).alerts = (processFrom st events clocks2).alerts := by
  induction events with
  | nil => intro st c1 c2; exact ⟨rfl, rfl⟩
  | cons e es ih =>
    intro st c1 c2
    simp only [processFrom]
    obtain ⟨h1, h2⟩ := ih (handleEvent st e (c1.headD 0)).state c1.tail c2.tail
    refine ⟨h1, ?_⟩
    exact congrArg (fun l => (handleEvent st e (c1.headD 0)).alert.toList ++ l) h2

/-- Claim C3: the emitted alert sequence is a function of the ordered event
sequence alone — two runs from the fresh processor over the same events,
with arbitrary (different) wall-clock readings, emit identical alerts. -/
theorem replay_determinism (events : List SensorEvent) (clocks1 clocks2 : List Int) :
    (processAll events clocks1).alerts = (processAll events clocks2).alerts :=
  (processFrom_clock_indep events initialProcessorState clocks1 clocks2).2

theorem getNextState_adjacent (S : ZoneState) (a1 a5 : ℚ) (t : Int) (d : ZoneStateData)
    (h : (getNextState S a1 a5 t d).1 ≠ S) : legalPair S (getNextState S a1 a5 t d).1 := by
  cases S <;>
    simp only [getNextState, evaluateNormalState, evaluateStressedState,
      evaluateCriticalState] at h ⊢ <;>
    split_ifs at h ⊢ <;> simp_all [legalPair]

theorem processFrom_alert_pairs (events : List SensorEvent) :
    ∀ (st : ProcessorState) (clocks : List Int) (a : ZoneAlert),
      a ∈ (processFrom st events clocks).alerts →
        a.previousState ≠ a.currentState ∧ legalPair a.previousState a.currentState := by
  induction events with
  | nil => intro st clocks a ha; simp [processFrom] at ha
  | cons e es ih =>
    intro st clocks a ha
    simp only [processFrom, List.mem_append] at ha
    rcases ha with ha | ha
    · by_cases h : alertEmitted st e
      · simp [handleEvent, h] at ha
        subst ha
        have hsa : shouldAlert (zoneDataOf st e.zoneId).currentState (nextStateOf st e)
            (dataAfterMachine st e).lastAlertTimestamp e.eventTimestamp = true := h
        have hne := ((shouldAlert_iff _ _ _ _).mp hsa).1
        refine ⟨fun hc => hne ?_, ?_⟩
        · simpa using hc.symm
        · simpa [nextStateOf, machineStep] using
            getNextState_adjacent (zoneDataOf st e.zoneId).currentState (avg1After st e)
              (avg5After st e) e.eventTimestamp
              { zoneDataOf st e.zoneId with
                  window1m := window1After st e
                  window5m := window5After st e }
              (by simpa [nextStateOf, machineStep] using hne)
      · simp [handleEvent, h] at ha
    · exact ih _ clocks.tail a ha

/-- Claim C4: every alert emitted over any run from the fresh processor has
distinct previous and current states, and the pair lies in the legal set
{NORMAL→STRESSED, STRESSED→CRITICAL, CRITICAL→STRESSED, STRESSED→NORMAL};
in particular no NORMAL→CRITICAL alert is ever emitted. -/
theorem alert_pairs_legal (events : List SensorEvent) (clocks : List Int) (a : ZoneAlert)
    (ha : a ∈ (processAll events clocks).alerts) :
    a.previousState ≠ a.currentState ∧ legalPair a.previousState a.currentState :=
  processFrom_alert_pairs events initialProcessorState clocks a ha

set_option maxRecDepth 10000 in
/-- Claim C4 witness. -/
theorem alert_pairs_legal_witness :
    c4WitnessAlert.previousState ≠ c4WitnessAlert.currentState ∧
      legalPair c4WitnessAlert.previousState c4WitnessAlert.currentState := by
  have hproj : (processAll c10Events []).alerts.map
      (fun a => (a.zoneId, a.previousState, a.currentState, a.avg1m, a.avg5m, a.timestamp)) =
      [("Z", ZoneState.NORMAL, ZoneState.STRESSED, (1 : ℚ), (1 : ℚ), (60000 : Int))] := by
    with_unfolding_all decide
  have hmem : c4WitnessAlert ∈ (processAll c10Events []).alerts := by
    cases halerts : (processAll c10Events []).alerts with
    | nil => rw [halerts] at hproj; cases hproj
    | cons a rest =>
      rw [halerts] at hproj
      simp only [List.map_cons, List.cons.injEq, List.map_eq_nil_iff, Prod.mk.injEq] at hproj
      obtain ⟨⟨hz, hp, hc, h1, h5, ht⟩, hrest⟩ := hproj
      have ha : a = c4WitnessAlert := by
        obtain ⟨az, ap, ac, a1, a5, at2⟩ := a
        simp only [] at hz hp hc h1 h5 ht
        simp [c4WitnessAlert, hz, hp, hc, h1, h5, ht]
      rw [ha]
      exact List.mem_cons_self _ _
  exact alert_pairs_legal c10Events [] c4WitnessAlert hmem


theorem handleEvent_alert_some (st : ProcessorState) (e : SensorEvent) (clock : Int)
    (h : alertEmitted st e = true) :
    (handleEvent st e clock).alert =
      some
        { zoneId := e.zoneId
          previousState := (zoneDataOf st e.zoneId).currentState
          currentState := nextStateOf st e
          avg1m := avg1After st e
          avg5m := avg5After st e
          timestamp := e.eventTimestamp } := by
  simp [handleEvent, h]

theorem handleEvent_alert_none (st : ProcessorState) (e : SensorEvent) (clock : Int)
    (h : alertEmitted st e = false) : (handleEvent st e clock).alert = none := by
  simp [handleEvent, h]

theorem alertsFor_append (z : String) (l1 l2 : List ZoneAlert) :
    alertsFor z (l1 ++ l2) = alertsFor z l1 ++ alertsFor z l2 := by
  simp [alertsFor]

theorem alertsFor_singleton_self (z : String) (a : ZoneAlert) (h : a.zoneId = z) :
    alertsFor z [a] = [a] := by
  simp [alertsFor, h]

theorem alertsFor_singleton_ne (z : String) (a : ZoneAlert) (h : a.zoneId ≠ z) :
    alertsFor z [a] = [] := by
  simp [alertsFor, h]

theorem processFrom_chain (events : List SensorEvent) :
    ∀ (st : ProcessorState) (clocks : List Int) (acc : List ZoneAlert),
      (∀ z, (zoneDataOf st z).lastAlertTimestamp =
        ((alertsFor z acc).getLast?).map ZoneAlert.timestamp) →
      (∀ z, (alertsFor z acc).Chain' (fun a b => a.timestamp ≤ b.timestamp)) →
      ∀ z, (alertsFor z (acc ++ (processFrom st events clocks).alerts)).Chain'
        (fun a b => a.timestamp ≤ b.timestamp) := by
  induction events with
  | nil =>
    intro st clocks acc hinv hch z
    simpa [processFrom] using hch z
  | cons e es ih =>
    intro st clocks acc hinv hch z
    simp only [processFrom, ← List.append_assoc]
    by_cases h : alertEmitted st e
    case neg =>
      apply ih ((handleEvent st e (clocks.headD 0)).state) clocks.tail
        (acc ++ (handleEvent st e (clocks.headD 0)).alert.toList)
      · intro z2
        rw [handleEvent_alert_none st e _ (by simpa using h)]
        simp only [Option.toList_none, List.append_nil]
        by_cases hz : z2 = e.zoneId
        · subst hz
          rw [zoneDataOf_handleEvent_self, newZoneData_lastAlert]
          simpa [h] using hinv e.zoneId
        · rw [zoneDataOf_handleEvent_ne st e _ z2 hz]
          exact hinv z2
      · intro z2
        rw [handleEvent_alert_none st e _ (by simpa using h)]
        simpa using hch z2
    case pos =>
      have hsa : shouldAlert (zoneDataOf st e.zoneId).currentState (nextStateOf st e)
          (dataAfterMachine st e).lastAlertTimestamp e.eventTimestamp = true := h
      have hcond := ((shouldAlert_iff _ _ _ _).mp hsa).2
      rw [dataAfterMachine_lastAlert, hinv e.zoneId] at hcond
      apply ih ((handleEvent st e (clocks.headD 0)).state) clocks.tail
        (acc ++ (handleEvent st e (clocks.headD 0)).alert.toList)
      · intro z2
        rw [handleEvent_alert_some st e _ h]
        simp only [Option.toList_some]
        by_cases hz : z2 = e.zoneId
        · subst hz
          rw [zoneDataOf_handleEvent_self, newZoneData_lastAlert, if_pos h,
            alertsFor_append, alertsFor_singleton_self e.zoneId _ rfl, List.getLast?_concat]
          rfl
        · rw [zoneDataOf_handleEvent_ne st e _ z2 hz, alertsFor_append,
            alertsFor_singleton_ne _ _ (by simpa using Ne.symm hz), List.append_nil]
          exact hinv z2
      · intro z2
        rw [handleEvent_alert_some st e _ h]
        simp only [Option.toList_some]
        by_cases hz : z2 = e.zoneId
        · subst hz
          rw [alertsFor_append, alertsFor_singleton_self e.zoneId _ rfl, List.chain'_append]
          refine ⟨hch e.zoneId, List.chain'_singleton _, ?_⟩
          intro x hx y hy
          simp only [List.head?_cons, Option.mem_def, Option.some.injEq] at hy
          subst hy
          rcases hcond with hnone | ⟨l, hl, hgt⟩
          · have hg : (alertsFor e.zoneId acc).getLast? = none := by
              cases hg2 : (alertsFor e.zoneId acc).getLast? <;> simp [hg2] at hnone ⊢
            rw [Option.mem_def, hg] at hx
            cases hx
          · rcases Option.map_eq_some'.mp hl with ⟨x2, hx2, hts⟩
            rw [Option.mem_def, hx2] at hx
            obtain rfl : x2 = x := Option.some.inj hx
            show x2.timestamp ≤ e.eventTimestamp
            omega
        · rw [alertsFor_append, alertsFor_singleton_ne _ _ (by simpa using Ne.symm hz),
            List.append_nil]
          exact hch z2

/-- Claim C5 (amended): per-zone consecutive alert timestamps never decrease. -/
theorem consecutive_alert_timestamps_mono (events : List SensorEvent) (clocks : List Int)
    (z : String) :
    (alertsFor z (processAll events clocks).alerts).Chain'
      (fun a b => a.timestamp ≤ b.timestamp) := by
  have := processFrom_chain events initialProcessorState clocks []
    (fun z2 => by simp [zoneDataOf, initialProcessorState, lookupZ, createZoneState, alertsFor])
    (fun z2 => by simp [alertsFor])
    z
  simpa [processAll] using this


set_option maxRecDepth 10000 in
/-- Claim C5 counterexample: over `c5Events` (all for zone "Z", timestamps in
order) the run emits three alerts; the second has currentState CRITICAL but
the third, consecutive to it, has previousState STRESSED — the
CRITICAL→STRESSED transition at t = 100500 was suppressed by the 1 s dedup
guard yet still updated the stored state, so consecutive alerts fail to
chain. -/
theorem consecutive_alert_chain_cex :
    ((alertsFor "Z" (processAll c5Events []).alerts).map
        (fun a => (a.previousState, a.currentState, a.timestamp)) =
      [(ZoneState.NORMAL, ZoneState.STRESSED, 60000),
       (ZoneState.STRESSED, ZoneState.CRITICAL, 100000),
       (ZoneState.STRESSED, ZoneState.NORMAL, 500000)]) ∧
    ¬ (((alertsFor "Z" (processAll c5Events []).alerts).map
        (fun a => (a.previousState, a.currentState, a.timestamp))).Chain'
          (fun x y => x.2.1 = y.1)) := by
  have hmap : (alertsFor "Z" (processAll c5Events []).alerts).map
        (fun a => (a.previousState, a.currentState, a.timestamp)) =
      [(ZoneState.NORMAL, ZoneState.STRESSED, 60000),
       (ZoneState.STRESSED, ZoneState.CRITICAL, 100000),
       (ZoneState.STRESSED, ZoneState.NORMAL, 500000)] := by
    with_unfolding_all decide
  refine ⟨hmap, ?_⟩
  rw [hmap]
  intro hch
  simp [List.chain'_cons] at hch

set_option maxRecDepth 10000 in
/-- Claim C6 counterexample. -/
theorem window_interval_cex :
    ((zoneDataOf (processAll c6Events []).state "W").window1m.buckets.map
        (fun b => b.timestamp) = [400, 0]) ∧
    ((zoneDataOf (processAll c6Events []).state "W").window5m.buckets.map
        (fun b => b.timestamp) = [400, 0]) ∧
    ¬ ((400 : Int) ≤ secondOf 0) := by
  with_unfolding_all decide

theorem mem_updateBucket (l : List WindowBucket) (k : Int) (load : ℚ) (b : WindowBucket)
    (hb : b ∈ updateBucket l k load) : b.timestamp = k ∨ b ∈ l := by
  induction l with
  | nil =>
    simp [updateBucket] at hb
    subst hb
    left
    rfl
  | cons b0 rest ih =>
    by_cases h : b0.timestamp = k
    · simp [updateBucket, h] at hb
      rcases hb with hb | hb
      · subst hb
        left
        simp
      · right
        simp [hb]
    · simp [updateBucket, h] at hb
      rcases hb with hb | hb
      · right
        simp [hb]
      · rcases ih hb with h2 | h2
        · left
          exact h2
        · right
          simp [h2]

theorem addEvent_buckets_lower (w : ZoneWindow) (t : Int) (load : ℚ) (size : Int)
    (hs : 0 < size) (b : WindowBucket) (hb : b ∈ (addEvent w t load size).buckets) :
    secondOf t - size < b.timestamp := by
  rcases mem_updateBucket _ _ _ _ hb with h | h
  · omega
  · have h2 := List.of_mem_filter h
    simp at h2
    omega

theorem addEvent_buckets_upper (w : ZoneWindow) (t : Int) (load : ℚ) (size M : Int)
    (hM : secondOf t ≤ M) (hw : ∀ b ∈ w.buckets, b.timestamp ≤ M) (b : WindowBucket)
    (hb : b ∈ (addEvent w t load size).buckets) : b.timestamp ≤ M := by
  rcases mem_updateBucket _ _ _ _ hb with h | h
  · omega
  · exact hw b (List.mem_of_mem_filter h)

theorem secondOf_mono (a b : Int) (h : a ≤ b) : secondOf a ≤ secondOf b := by
  unfold secondOf
  rw [Int.fdiv_eq_ediv _ (by omega), Int.fdiv_eq_ediv _ (by omega)]
  exact Int.ediv_le_ediv (by omega) h

theorem newZoneData_windows (st : ProcessorState) (e : SensorEvent) :
    (newZoneData st e).window1m = window1After st e ∧
    (newZoneData st e).window5m = window5After st e := by
  have hw := getNextState_windows (zoneDataOf st e.zoneId).currentState (avg1After st e)
    (avg5After st e) e.eventTimestamp
    { zoneDataOf st e.zoneId with
        window1m := window1After st e
        window5m := window5After st e }
  by_cases h : alertEmitted st e <;>
    simp only [newZoneData, h, if_true, if_false] <;>
    exact ⟨by simpa [dataAfterMachine, machineStep] using hw.1,
      by simpa [dataAfterMachine, machineStep] using hw.2⟩

theorem processFrom_keysLE (events : List SensorEvent) :
    ∀ (st : ProcessorState) (clocks : List Int) (M : Int),
      (∀ e ∈ events, secondOf e.eventTimestamp ≤ M) → windowKeysLE st M →
      windowKeysLE (processFrom st events clocks).state M := by
  induction events with
  | nil => intro st clocks M _ hst; exact hst
  | cons e es ih =>
    intro st clocks M hev hst
    simp only [processFrom]
    apply ih _ clocks.tail M (fun e2 he2 => hev e2 (List.mem_cons_of_mem e he2))
    intro z
    by_cases hz : z = e.zoneId
    · subst hz
      rw [zoneDataOf_handleEvent_self, (newZoneData_windows st e).1,
        (newZoneData_windows st e).2]
      have hMe : secondOf e.eventTimestamp ≤ M := hev e (List.mem_cons_self e es)
      exact ⟨fun b hb => addEvent_buckets_upper _ _ _ _ M hMe (hst e.zoneId).1 b hb,
        fun b hb => addEvent_buckets_upper _ _ _ _ M hMe (hst e.zoneId).2 b hb⟩
    · rw [zoneDataOf_handleEvent_ne st e _ z hz]
      exact hst z

theorem processFrom_append_state (l1 l2 : List SensorEvent) :
    ∀ st : ProcessorState,
      (processFrom st (l1 ++ l2) []).state = (processFrom (processFrom st l1 []).state l2 []).state := by
  induction l1 with
  | nil => intro st; rfl
  | cons e es ih =>
    intro st
    simp only [List.cons_append, processFrom, List.headD, List.tail]
    exact ih _

set_option maxRecDepth 10000 in
/-- Claim C6 (amended): when the processed event's timestamp is at least
every earlier event's timestamp (in particular for in-order streams), both
of its zone's windows contain only buckets whose key lies in the half-open
interval; for out-of-order events only the lower bound survives (see the
counterexample). -/
theorem window_interval_inorder (pre : List SensorEvent) (e : SensorEvent)
    (clocks : List Int) (hord : ∀ e2 ∈ pre, e2.eventTimestamp ≤ e.eventTimestamp) :
    (∀ b ∈ (zoneDataOf (processAll (pre ++ [e]) clocks).state e.zoneId).window1m.buckets,
      secondOf e.eventTimestamp - WINDOW_1M_SECONDS < b.timestamp ∧
        b.timestamp ≤ secondOf e.eventTimestamp) ∧
    (∀ b ∈ (zoneDataOf (processAll (pre ++ [e]) clocks).state e.zoneId).window5m.buckets,
      secondOf e.eventTimestamp - WINDOW_5M_SECONDS < b.timestamp ∧
        b.timestamp ≤ secondOf e.eventTimestamp) := by
  have hclock := (processFrom_clock_indep (pre ++ [e]) initialProcessorState clocks []).1
  unfold processAll
  rw [hclock, processFrom_append_state pre [e] initialProcessorState]
  have hbound : windowKeysLE (processFrom initialProcessorState pre []).state
      (secondOf e.eventTimestamp) := by
    apply processFrom_keysLE pre initialProcessorState [] (secondOf e.eventTimestamp)
      (fun e2 he2 => secondOf_mono _ _ (hord e2 he2))
    intro z
    simp [zoneDataOf, initialProcessorState, lookupZ, createZoneState, createWindow]
  simp only [processFrom]
  rw [zoneDataOf_handleEvent_self, (newZoneData_windows _ e).1, (newZoneData_windows _ e).2]
  constructor
  · intro b hb
    exact ⟨addEvent_buckets_lower _ _ _ _ (by decide) b hb,
      addEvent_buckets_upper _ _ _ _ _ (le_refl _) (hbound e.zoneId).1 b hb⟩
  · intro b hb
    exact ⟨addEvent_buckets_lower _ _ _ _ (by decide) b hb,
      addEvent_buckets_upper _ _ _ _ _ (le_refl _) (hbound e.zoneId).2 b hb⟩


set_option maxRecDepth 10000 in
/-- Claim C6 witness. -/
theorem window_interval_inorder_witness :
    (∀ b ∈ (zoneDataOf (processAll ([c6wPre] ++ [c6wEvent]) []).state
        c6wEvent.zoneId).window1m.buckets,
      secondOf c6wEvent.eventTimestamp - WINDOW_1M_SECONDS < b.timestamp ∧
        b.timestamp ≤ secondOf c6wEvent.eventTimestamp) ∧
    (∀ b ∈ (zoneDataOf (processAll ([c6wPre] ++ [c6wEvent]) []).state
        c6wEvent.zoneId).window5m.buckets,
      secondOf c6wEvent.eventTimestamp - WINDOW_5M_SECONDS < b.timestamp ∧
        b.timestamp ≤ secondOf c6wEvent.eventTimestamp) :=
  window_interval_inorder [c6wPre] c6wEvent []
    (by
      intro e2 he2
      simp only [List.mem_singleton] at he2
      subst he2
      with_unfolding_all decide)

theorem sum_map_filter_split {M : Type} [AddCommMonoid M] (p : WindowBucket → Bool)
    (f : WindowBucket → M) (l : List WindowBucket) :
    ((l.filter p).map f).sum + ((l.filter (fun b => ! p b)).map f).sum = (l.map f).sum := by
  induction l with
  | nil => simp
  | cons b rest ih =>
    by_cases h : p b
    · rw [List.filter_cons_of_pos h, List.filter_cons_of_neg (by simp [h])]
      simp only [List.map_cons, List.sum_cons, add_assoc]
      rw [ih]
    · rw [List.filter_cons_of_neg (by simp [h]), List.filter_cons_of_pos (by simp [h])]
      simp only [List.map_cons, List.sum_cons, add_left_comm]
      rw [ih]

theorem updateBucket_map_sum (l : List WindowBucket) (k : Int) (load : ℚ) :
    ((updateBucket l k load).map (fun b => b.sum)).sum =
      (l.map (fun b => b.sum)).sum + load := by
  induction l with
  | nil => simp [updateBucket]
  | cons b rest ih =>
    by_cases h : b.timestamp = k
    · simp [updateBucket, h]
      ring
    · simp [updateBucket, h, ih]
      ring

theorem updateBucket_map_count (l : List WindowBucket) (k : Int) (load : ℚ) :
    ((updateBucket l k load).map (fun b => b.count)).sum =
      (l.map (fun b => b.count)).sum + 1 := by
  induction l with
  | nil => simp [updateBucket]
  | cons b rest ih =>
    by_cases h : b.timestamp = k
    · simp [updateBucket, h]
      ring
    · simp [updateBucket, h, ih]
      ring

theorem updateBucket_count_pos (k : Int) (load : ℚ) :
    ∀ l : List WindowBucket, (∀ b ∈ l, 0 < b.count) →
      ∀ b ∈ updateBucket l k load, 0 < b.count := by
  intro l
  induction l with
  | nil =>
    intro _ b hb
    simp [updateBucket] at hb
    subst hb
    simp
  | cons b0 rest ih =>
    intro h b hb
    by_cases h0 : b0.timestamp = k
    · simp only [updateBucket, h0, if_pos, List.mem_cons] at hb
      rcases hb with hb | hb
      · subst hb
        have hpos := h b0 (List.mem_cons_self b0 rest)
        show 0 < b0.count + 1
        omega
      · exact h b (List.mem_cons_of_mem b0 hb)
    · simp only [updateBucket, h0, if_neg, List.mem_cons, not_false_iff] at hb
      rcases hb with hb | hb
      · subst hb
        exact h b (List.mem_cons_self b rest)
      · exact ih (fun b2 hb2 => h b2 (List.mem_cons_of_mem b0 hb2)) b hb

theorem windowInv_create : WindowInv createWindow := by
  refine ⟨rfl, rfl, ?_⟩
  intro b hb
  simp [createWindow] at hb

theorem windowInv_evict (w : ZoneWindow) (cs size : Int) (h : WindowInv w) :
    WindowInv (evictExpiredBuckets w cs size) := by
  obtain ⟨hs, hc, hp⟩ := h
  simp only [evictExpiredBuckets, WindowInv]
  refine ⟨?_, ?_, ?_⟩
  · rw [hs, ← sum_map_filter_split (fun b => decide (b.timestamp ≤ cs - size))
      (fun b => b.sum) w.buckets]
    ring
  · rw [hc, ← sum_map_filter_split (fun b => decide (b.timestamp ≤ cs - size))
      (fun b => b.count) w.buckets]
    ring
  · intro b hb
    exact hp b (List.mem_of_mem_filter hb)

theorem windowInv_addEvent (w : ZoneWindow) (t : Int) (load : ℚ) (size : Int)
    (h : WindowInv w) : WindowInv (addEvent w t load size) := by
  obtain ⟨hs, hc, hp⟩ := windowInv_evict w (secondOf t) size h
  simp only [addEvent, WindowInv]
  refine ⟨?_, ?_, ?_⟩
  · rw [hs, updateBucket_map_sum]
  · rw [hc, updateBucket_map_count]
  · exact updateBucket_count_pos _ _ _ hp

theorem windowInv_addEvents (ops : List (Int × ℚ)) (size : Int) :
    ∀ w : ZoneWindow, WindowInv w → WindowInv (addEvents w ops size) := by
  induction ops with
  | nil => intro w h; exact h
  | cons op rest ih =>
    intro w h
    exact ih _ (windowInv_addEvent w op.1 op.2 size h)

/-- Claim C7: after any sequence of insertions into a window created empty,
`totalSum` and `totalCount` equal the sums of the contained buckets' `sum`
and `count` fields, and `totalCount` is never negative. -/
theorem window_totals_consistent (ops : List (Int × ℚ)) (size : Int) :
    (addEvents createWindow ops size).totalSum =
      ((addEvents createWindow ops size).buckets.map (fun b => b.sum)).sum ∧
    (addEvents createWindow ops size).totalCount =
      ((addEvents createWindow ops size).buckets.map (fun b => b.count)).sum ∧
    0 ≤ (addEvents createWindow ops size).totalCount := by
  obtain ⟨hs, hc, hp⟩ := windowInv_addEvents ops size createWindow windowInv_create
  refine ⟨hs, hc, ?_⟩
  rw [hc]
  apply List.sum_nonneg
  intro x hx
  simp only [List.mem_map] at hx
  obtain ⟨b, hb, hbx⟩ := hx
  have := hp b hb
  omega

/-- Claim C8: `calculateAverage` returns 0 when `totalCount` is 0 and
`totalSum / totalCount` otherwise; on a window reached from `createWindow`
the guard makes the division unreachable when the window is empty. -/
theorem calculateAverage_guarded (ops : List (Int × ℚ)) (size : Int) :
    (calculateAverage (addEvents createWindow ops size) =
      if (addEvents createWindow ops size).totalCount = 0 then 0
      else (addEvents createWindow ops size).totalSum /
        ((addEvents createWindow ops size).totalCount : ℚ)) ∧
    ((addEvents createWindow ops size).buckets = [] →
      calculateAverage (addEvents createWindow ops size) = 0) := by
  refine ⟨rfl, ?_⟩
  intro hempty
  have hc := (windowInv_addEvents ops size createWindow windowInv_create).2.1
  rw [hempty] at hc
  simp at hc
  simp [calculateAverage, hc]

/-- Claim C8 witness. -/
theorem calculateAverage_guarded_witness :
    (calculateAverage (addEvents createWindow [] 60) =
      if (addEvents createWindow [] 60).totalCount = 0 then 0
      else (addEvents createWindow [] 60).totalSum /
        ((addEvents createWindow [] 60).totalCount : ℚ)) ∧
    ((addEvents createWindow [] 60).buckets = [] →
      calculateAverage (addEvents createWindow [] 60) = 0) :=
  calculateAverage_guarded [] 60


/-- Claim C9 (amended): a zone in STRESSED stays in STRESSED over any input
sequence whose 5-minute averages lie strictly inside the hysteresis band
(0.65, 0.75), provided no input's 1-minute average reaches the 0.90
critical up-threshold; without that proviso the claim fails (see the
counterexample). -/
theorem hysteresis_band (d : ZoneStateData) (inputs : List (ℚ × ℚ × Int))
    (hd : d.currentState = ZoneState.STRESSED)
    (hband : ∀ i ∈ inputs,
      THRESHOLD_STRESSED_TO_NORMAL < i.2.1 ∧ i.2.1 < THRESHOLD_STRESSED ∧
        i.1 < THRESHOLD_CRITICAL_1M) :
    (machineRun d inputs).currentState = ZoneState.STRESSED := by
  induction inputs generalizing d with
  | nil => exact hd
  | cons i rest ih =>
    obtain ⟨a1, a5, t⟩ := i
    obtain ⟨hlo, hhi, h1⟩ := hband _ (List.mem_cons_self _ rest)
    simp only [machineRun]
    apply ih
    · rw [hd]
      simp only [getNextState, evaluateStressedState]
      rw [if_neg (by simp only [not_le]; exact h1),
        if_neg (by simp only [not_le]; exact hlo)]
    · exact fun i2 hi2 => hband i2 (List.mem_cons_of_mem _ hi2)

/-- Claim C9 witness. -/
theorem hysteresis_band_witness :
    (machineRun { createZoneState with currentState := ZoneState.STRESSED }
      [((1 : ℚ)/2, (7 : ℚ)/10, 0)]).currentState = ZoneState.STRESSED :=
  hysteresis_band { createZoneState with currentState := ZoneState.STRESSED }
    [((1 : ℚ)/2, (7 : ℚ)/10, 0)] rfl
    (by
      intro i hi
      simp at hi
      subst hi
      refine ⟨by norm_num [THRESHOLD_STRESSED_TO_NORMAL], by norm_num [THRESHOLD_STRESSED],
        by norm_num [THRESHOLD_CRITICAL_1M]⟩)

set_option maxRecDepth 10000 in
/-- Claim C9 counterexample: after `c9History` zone "Z" is STRESSED; the two
probe events both observe a 5-minute average strictly inside (0.65, 0.75)
(namely 59/80 and 187/250), yet after them the zone is CRITICAL — their
1-minute average 1.0 matured the 20 s critical confirmation, so a
transition fired although every a5 stayed inside the band. -/
theorem hysteresis_cex :
    (zoneDataOf (processAll c9History []).state "Z").currentState = ZoneState.STRESSED ∧
    (THRESHOLD_STRESSED_TO_NORMAL < avg5After (processAll c9History []).state c9Q1 ∧
      avg5After (processAll c9History []).state c9Q1 < THRESHOLD_STRESSED) ∧
    (THRESHOLD_STRESSED_TO_NORMAL <
        avg5After (processAll (c9History ++ [c9Q1]) []).state c9Q2 ∧
      avg5After (processAll (c9History ++ [c9Q1]) []).state c9Q2 < THRESHOLD_STRESSED) ∧
    (zoneDataOf (processAll (c9History ++ [c9Q1, c9Q2]) []).state "Z").currentState =
      ZoneState.CRITICAL := by
  with_unfolding_all decide

set_option maxRecDepth 10000 in
/-- Claim C10 counterexample: the NORMAL→STRESSED transition of zone "Z" is
triggered by the second event, which carries (latitude, longitude) =
(30, 40); the materialized write nevertheless uses (10, 20) — the
coordinates cached from the zone's first event. -/
theorem write_coords_cex :
    ((processAll c10Events []).writes.map
        (fun w => (w.zoneId, w.state, w.latitude, w.longitude)) =
      [("Z", ZoneState.STRESSED, (10 : ℚ), (20 : ℚ))]) ∧
    ((c10Events.getLast?).map (fun e => (e.latitude, e.longitude)) =
      some ((30 : ℚ), (40 : ℚ))) ∧
    ((10 : ℚ), (20 : ℚ)) ≠ ((30 : ℚ), (40 : ℚ)) := by
  with_unfolding_all decide


theorem firstCoord_append_of_some (l1 l2 : List SensorEvent) (z : String) (c : ℚ × ℚ)
    (h : firstCoord l1 z = some c) : firstCoord (l1 ++ l2) z = some c := by
  simp only [firstCoord, List.find?_append]
  cases hf : l1.find? (fun e => decide (e.zoneId = z)) with
  | none => rw [firstCoord, hf] at h; cases h
  | some e =>
    rw [firstCoord, hf] at h
    simpa [Option.or] using h

theorem firstCoord_append_of_none (l1 l2 : List SensorEvent) (z : String)
    (h : firstCoord l1 z = none) : firstCoord (l1 ++ l2) z = firstCoord l2 z := by
  simp only [firstCoord, List.find?_append]
  cases hf : l1.find? (fun e => decide (e.zoneId = z)) with
  | none => simp [Option.or]
  | some e => rw [firstCoord, hf] at h; cases h

theorem firstCoord_single_self (e : SensorEvent) :
    firstCoord [e] e.zoneId = some (e.latitude, e.longitude) := by
  simp [firstCoord]

theorem firstCoord_single_ne (e : SensorEvent) (z : String) (h : z ≠ e.zoneId) :
    firstCoord [e] z = none := by
  simp [firstCoord, Ne.symm h]

theorem lookupZ_coordsAfter (st : ProcessorState) (e : SensorEvent) (done : List SensorEvent)
    (hinv : ∀ z, lookupZ st.zoneCoordinates z = firstCoord done z) (z : String) :
    lookupZ (coordsAfter st e) z = firstCoord (done ++ [e]) z := by
  by_cases hz : z = e.zoneId
  · subst hz
    cases hl : lookupZ st.zoneCoordinates e.zoneId with
    | some c =>
      have hl2 := hl
      rw [hinv e.zoneId] at hl2
      rw [coordsAfter, hl, firstCoord_append_of_some done [e] e.zoneId c hl2]
      show lookupZ st.zoneCoordinates e.zoneId = some c
      exact hl
    | none =>
      rw [coordsAfter, hl, lookupZ_insertZ_self]
      rw [hinv e.zoneId] at hl
      rw [firstCoord_append_of_none done [e] e.zoneId hl, firstCoord_single_self]
  · have hfc : firstCoord (done ++ [e]) z = firstCoord done z := by
      cases hd : firstCoord done z with
      | some c => exact firstCoord_append_of_some done [e] z c hd
      | none => rw [firstCoord_append_of_none done [e] z hd, firstCoord_single_ne e z hz]
    rw [hfc, ← hinv z]
    cases hl : lookupZ st.zoneCoordinates e.zoneId with
    | some c => rw [coordsAfter, hl]
    | none => rw [coordsAfter, hl, lookupZ_insertZ_ne _ _ _ _ (Ne.symm hz)]

theorem handleEvent_write_chars (st : ProcessorState) (e : SensorEvent) (clock : Int)
    (w : RedisWrite) (hw : (handleEvent st e clock).write = some w) :
    w.zoneId = e.zoneId ∧
      lookupZ (coordsAfter st e) e.zoneId = some (w.latitude, w.longitude) := by
  simp only [handleEvent] at hw
  by_cases hc : nextStateOf st e ≠ (zoneDataOf st e.zoneId).currentState
  · rw [if_pos hc] at hw
    cases hlc : lookupZ (coordsAfter st e) e.zoneId with
    | none => rw [hlc] at hw; cases hw
    | some c =>
      rw [hlc] at hw
      have hww : writeZoneState e.zoneId (newZoneData st e) c.1 c.2 clock = w :=
        Option.some.inj hw
      subst hww
      refine ⟨rfl, ?_⟩
      show some c = _
      rfl
  · rw [if_neg hc] at hw
    cases hw

theorem processFrom_coords (events : List SensorEvent) :
    ∀ (st : ProcessorState) (clocks : List Int) (done : List SensorEvent),
      (∀ z, lookupZ st.zoneCoordinates z = firstCoord done z) →
      ∀ w ∈ (processFrom st events clocks).writes,
        firstCoord (done ++ events) w.zoneId = some (w.latitude, w.longitude) := by
  induction events with
  | nil =>
    intro st clocks done hinv w hw
    simp [processFrom] at hw
  | cons e es ih =>
    intro st clocks done hinv w hw
    have hcoords := lookupZ_coordsAfter st e done hinv
    have hlist : done ++ e :: es = (done ++ [e]) ++ es := by simp
    rw [hlist]
    simp only [processFrom, List.mem_append] at hw
    rcases hw with hw | hw
    · cases hwo : (handleEvent st e (clocks.headD 0)).write with
      | none => rw [hwo] at hw; cases hw
      | some w2 =>
        rw [hwo] at hw
        simp only [Option.toList_some, List.mem_singleton] at hw
        rw [hw]
        obtain ⟨hwz, hwc⟩ := handleEvent_write_chars st e (clocks.headD 0) w2 hwo
        rw [hwz]
        rw [hcoords e.zoneId] at hwc
        exact firstCoord_append_of_some (done ++ [e]) es e.zoneId _ hwc
    · exact ih (handleEvent st e (clocks.headD 0)).state clocks.tail (done ++ [e])
        (fun z => hcoords z) w hw

/-- Claim C10 (amended): every materialized write for a zone carries the
(latitude, longitude) of the first event ever processed for that zone —
not those of the triggering event (see the counterexample). -/
theorem write_coords_first_event (events : List SensorEvent) (clocks : List Int)
    (w : RedisWrite) (hw : w ∈ (processAll events clocks).writes) :
    firstCoord events w.zoneId = some (w.latitude, w.longitude) := by
  have := processFrom_coords events initialProcessorState clocks []
    (fun z => by simp [initialProcessorState, lookupZ, firstCoord]) w hw
  simpa using this

set_option maxRecDepth 10000 in
/-- Claim C10 amended witness. -/
theorem write_coords_first_event_witness :
    firstCoord c10Events c10Write.zoneId = some (c10Write.latitude, c10Write.longitude) := by
  have hmem : c10Write ∈ (processAll c10Events []).writes := by
    with_unfolding_all decide
  exact write_coords_first_event c10Events [] c10Write hmem

end GeoPulse
